import Mathlib

/-!
Verification of the IPC repository: a nonce-correlated, single-connection
multiplexed RPC layer with a websocket client (`src/ipc/client.py`) and an
aiohttp server (`src/ipc/server.py`).

The embedding below translates the Python source into Lean:
* JSON wire values become the inductive `JVal`; a Python object that
  `json.dumps` cannot encode is `JVal.pyObj`.
* Python dicts become association lists (`alookup` / `dinsert` / `dmerge`
  mirror `d[k]`, `d[k] = v` and `{**a, **b}`).
* Exceptions escaping a coroutine become `Except PyError`.
* `hmac.compare_digest` is modelled including its `TypeError` behaviour on
  `None` and on non-ASCII strings.
-/

namespace IPC

/-- Python exceptions that escape the modelled coroutines and kill them. -/
inductive PyError where
  | typeError
  | keyError
  | attributeError
  | invalidStateError
deriving DecidableEq

/-- A JSON-ish wire value. `pyObj name` stands for a Python object of type
`name` that `json.dumps` rejects with
`TypeError: Object of type <name> is not JSON serializable`. -/
inductive JVal where
  | null
  | boolean (b : Bool)
  | int (n : Int)
  | str (s : String)
  | arr (xs : List JVal)
  | obj (fs : List (String × JVal))
  | pyObj (tyName : String)

mutual

/-- Whether `json.dumps` succeeds on the value (no embedded Python object). -/
def JVal.serializable : JVal → Bool
  | JVal.null => true
  | JVal.boolean _ => true
  | JVal.int _ => true
  | JVal.str _ => true
  | JVal.arr xs => serializableList xs
  | JVal.obj fs => serializableFields fs
  | JVal.pyObj _ => false

/-- `serializable` on every element of a JSON array. -/
def serializableList : List JVal → Bool
  | [] => true
  | x :: xs => JVal.serializable x && serializableList xs

/-- `serializable` on every value of a JSON object. -/
def serializableFields : List (String × JVal) → Bool
  | [] => true
  | (_, v) :: fs => JVal.serializable v && serializableFields fs

end

/-- Association-list lookup, the embedding of Python `d.get(k)` / `d[k]`
and of `k in d` (via `isSome`). -/
def alookup {β : Type} : List (String × β) → String → Option β
  | [], _ => none
  | (k, v) :: rest, key => if key = k then some v else alookup rest key

/-- `d[k] = v` on a Python dict: replace the existing binding or append. -/
def dinsert {β : Type} : List (String × β) → String → β → List (String × β)
  | [], k, v => [(k, v)]
  | (k', v') :: rest, k, v =>
      if k' = k then (k, v) :: rest else (k', v') :: dinsert rest k v

/-- The dict merge `{**a, **b}`: entries of `b` overwrite entries of `a`. -/
def dmerge {β : Type} (a b : List (String × β)) : List (String × β) :=
  b.foldl (fun acc kv => dinsert acc kv.1 kv.2) a

/-- A raised Python exception as the server sees it: its type name
(`type(error).__name__`) and its message, which the server never sends. -/
structure PyExn where
  tyName : String
  msg : String

/-- `Context` from `server.py`: the single argument handed to a handler. -/
structure Context where
  data : List (String × JVal)
  endpoint : String

/-- A registered endpoint handler: takes the `Context`, returns a wire value
or raises. -/
def Handler : Type := Context → Except PyExn JVal

/-- `RequestPayload` as the server reads it from `message.json()`: every
field is fetched with `.get` (so may be absent) except `data`, which is
read with `request["data"]` and therefore raises `KeyError` when absent. -/
structure RequestPayload where
  endpoint : Option String
  data : Option (List (String × JVal))
  headers : Option (List (String × String))
  nonce : Option String

/-- A response envelope `{nonce: ..., response: ...}`. -/
structure Response where
  nonce : Option String
  response : JVal

/-- The error object `{"error": msg, "code": code}` placed in `response`. -/
def errVal (msg : String) (code : Int) : JVal :=
  JVal.obj [("error", JVal.str msg), ("code", JVal.int code)]

/-- The message of the serialization-failure fallback response, the three
juxtaposed string literals of `server.py`. -/
def nonSerializableMsg : String :=
  "IPC route returned values which are not able to be sent over sockets. If you are trying to send a discord.py object, please only send the data you need."

/-- Python truthiness of an optional string: `None` and `""` are falsy. -/
def pyFalsyStr : Option String → Bool
  | none => true
  | some s => s = ""

/-- Python truthiness of an optional dict: `None` and `{}` are falsy. -/
def pyFalsyDict {β : Type} : Option (List β) → Bool
  | none => true
  | some l => l.isEmpty

/-- All characters below code point 128; `hmac.compare_digest` on `str`
arguments requires both to be ASCII-only. -/
def asciiOnly (s : String) : Bool :=
  s.data.all (fun c => c.toNat < 128)

/-- `hmac.compare_digest(a, b)` on two strings: a constant-time equality
test that raises `TypeError` when either string has non-ASCII characters. -/
def compare_digest (a b : String) : Except PyError Bool :=
  if asciiOnly a && asciiOnly b then Except.ok (decide (a = b))
  else Except.error PyError.typeError

/-- What one loop iteration of `Server.handle_accept` did: the responses
written on the websocket (in order) and which endpoint's handler ran. -/
structure ServerStep where
  sent : List Response
  invoked : Option String

/-- The common `websocket.send_json(response)` tail of the loop body: if the
response serializes, it is sent as-is; otherwise `json.dumps` raises
`TypeError("Object of type ... is not JSON serializable")`, the message
matches the guard, and the fallback 500 response is sent instead. -/
def send_response (nonce : Option String) (ret : JVal) (inv : Option String) :
    Except PyError ServerStep :=
  if JVal.serializable ret then
    Except.ok ⟨[⟨nonce, ret⟩], inv⟩
  else
    Except.ok ⟨[⟨nonce, errVal nonSerializableMsg 500⟩], inv⟩

/-- One iteration of the `async for message in websocket` loop of
`Server.handle_accept`, on one parsed inbound payload.

Control flow translated from `server.py`:
1. `if not headers or not compare_digest(headers.get("Authorization"), secret)`:
   falsy headers short-circuit to the 401 response; otherwise a missing
   `Authorization` key passes `None` to `compare_digest`, which raises
   `TypeError` (uncaught: the connection handler dies, nothing is sent).
2. `if not endpoint or endpoint not in self.endpoints`: the 400 response.
3. `Context(data=request["data"], ...)`: `KeyError` when `data` is absent.
4. handler raised ⇒ 500 response naming only the exception's type name.
5. otherwise the handler's return value, through `send_response`. -/
def handle_message (secret : String) (endpoints : List (String × Handler))
    (req : RequestPayload) : Except PyError ServerStep :=
  let nonce := req.nonce
  if pyFalsyDict req.headers then
    send_response nonce (errVal "Invalid or no token provided." 401) none
  else
    match alookup (req.headers.getD []) "Authorization" with
    | none => Except.error PyError.typeError
    | some auth =>
      match compare_digest auth secret with
      | Except.error e => Except.error e
      | Except.ok ok =>
        if !ok then
          send_response nonce (errVal "Invalid or no token provided." 401) none
        else if pyFalsyStr req.endpoint then
          send_response nonce (errVal "Invalid or no endpoint given." 400) none
        else
          match req.endpoint with
          | none =>
            send_response nonce (errVal "Invalid or no endpoint given." 400) none
          | some ep =>
            match alookup endpoints ep with
            | none =>
              send_response nonce (errVal "Invalid or no endpoint given." 400) none
            | some h =>
              match req.data with
              | none => Except.error PyError.keyError
              | some d =>
                match h ⟨d, ep⟩ with
                | Except.error e =>
                  send_response nonce
                    (errVal ("IPC route raised error of type " ++ e.tyName) 500)
                    (some ep)
                | Except.ok ret => send_response nonce ret (some ep)

/-- The sequential per-connection loop of `Server.handle_accept`: messages
are processed one after the other; an uncaught exception kills the
connection handler and no later message is processed. Returns the
responses sent on the connection, in order. -/
def handle_loop (secret : String) (endpoints : List (String × Handler)) :
    List RequestPayload → Except PyError (List Response)
  | [] => Except.ok []
  | req :: rest =>
    match handle_message secret endpoints req with
    | Except.error e => Except.error e
    | Except.ok step =>
      match handle_loop secret endpoints rest with
      | Except.error e => Except.error e
      | Except.ok rs => Except.ok (step.sent ++ rs)

/-- `Server.update_endpoints`: `self.endpoints = {**self.endpoints, **ROUTES}`
followed by `ROUTES.clear()`; returns the new `(endpoints, ROUTES)` pair. -/
def update_endpoints {β : Type} (endpoints routes : List (String × β)) :
    List (String × β) × List (String × β) :=
  (dmerge endpoints routes, [])

/-- The `route` decorator of `server.py`: registers the handler in `ROUTES`
under `name` when `name` is truthy, else under the function's own
`__name__`. -/
def route_register {β : Type} (routes : List (String × β)) (name : Option String)
    (fname : String) (h : β) : List (String × β) :=
  match name with
  | none => dinsert routes fname h
  | some n => if n = "" then dinsert routes fname h else dinsert routes n h

/-- `Server.handle_accept` as a whole: merge pending routes into the live
registry once, then run the sequential message loop. -/
def handle_accept (secret : String)
    (endpoints routes : List (String × Handler))
    (msgs : List RequestPayload) : Except PyError (List Response) :=
  handle_loop secret (update_endpoints endpoints routes).1 msgs

/-- The state of one `asyncio.Future` slot in the client's pending table. -/
inductive FutureState where
  | pending
  | resolved (v : JVal)

/-- Serialization of a `Response` as the JSON object the client's
`recv.json()` yields: the fields written by `websocket.send_json`. -/
def Response.toWire (r : Response) : List (String × JVal) :=
  [("nonce", match r.nonce with | some s => JVal.str s | none => JVal.null),
   ("response", r.response)]

/-- Outcome of the client's receive loop processing one application frame:
either the updated pending table, or the uncaught exception that kills the
`_receive_requests` task (`KeyError` from `response["nonce"]`, or
`InvalidStateError` from `set_result` on an already-done future — in that
case the table is returned unchanged, the resolved value untouched). -/
inductive WorkerResult where
  | ok (table : List (String × FutureState))
  | keyErrorCrash
  | invalidStateCrash (table : List (String × FutureState))

/-- The application-frame branch of `Client._receive_requests`:
`nonce = response["nonce"]` (uncaught `KeyError` when absent); look the
nonce up in the weak pending table (`KeyError` is caught: silently pass);
`ret = response.get("response", response)`; `future.set_result(ret)`, which
raises `InvalidStateError` if the future is already resolved. A non-string
nonce value can never equal a string table key, so it takes the caught
`KeyError` path. -/
def process_response (table : List (String × FutureState))
    (wire : List (String × JVal)) : WorkerResult :=
  match alookup wire "nonce" with
  | none => WorkerResult.keyErrorCrash
  | some nonceVal =>
    let ret := (alookup wire "response").getD (JVal.obj wire)
    match nonceVal with
    | JVal.str nonce =>
      match alookup table nonce with
      | none => WorkerResult.ok table
      | some FutureState.pending =>
          WorkerResult.ok (dinsert table nonce (FutureState.resolved ret))
      | some (FutureState.resolved _) => WorkerResult.invalidStateCrash table
    | _ => WorkerResult.ok table

/-- The frame types `Client._receive_requests` distinguishes. -/
inductive WSFrame where
  | ping
  | pong
  | closed
  | text (wire : List (String × JVal))

/-- What the receive loop does with one frame, at the level of control
frames sent back on the connection. -/
inductive ControlReply where
  | sentPing
  | sentPong
  | ignored
  | reconnected
  | processed
deriving DecidableEq

/-- The dispatch of `Client._receive_requests` on the frame type, as read
off the source: on `PING` the client calls `self._websocket.ping()` — which
emits a PING frame, not a PONG; on `PONG` it does nothing; on `CLOSED` it
tears the session down and reconnects; anything else is parsed as a
response envelope. -/
def frame_control_action : WSFrame → ControlReply
  | WSFrame.ping => ControlReply.sentPing
  | WSFrame.pong => ControlReply.ignored
  | WSFrame.closed => ControlReply.reconnected
  | WSFrame.text _ => ControlReply.processed

/-- Client bookkeeping state: `_session` (`none` ↔ the attribute is `None`;
`some true` an open session, `some false` a closed session object — still
truthy in Python), the `_worker` and `_sender` task slots (`none` ↔ the
attribute is `None`; `some true` a live task, `some false` a dead one), the
outbound `_queue` and the pending `_requests` table. -/
structure ClientSys where
  session : Option Bool
  workerTask : Option Bool
  senderTask : Option Bool
  queue : List RequestPayload
  requests : List (String × FutureState)

/-- `Client.init_sock`: opens a fresh session and websocket and starts the
receive and send loops only when their task slot is `None`. -/
def init_sock (st : ClientSys) : ClientSys :=
  { st with
    session := some true
    workerTask := if st.workerTask.isNone then some true else st.workerTask
    senderTask := if st.senderTask.isNone then some true else st.senderTask }

/-- `Client.close`: `await self._session.close()` (an `AttributeError` if no
session was ever opened — `self._session` stays assigned, now closed), then
cancel both loop tasks and set their slots to `None`. -/
def close_model (st : ClientSys) : Except PyError ClientSys :=
  match st.session with
  | none => Except.error PyError.attributeError
  | some _ =>
      Except.ok { st with
        session := some false
        workerTask := none
        senderTask := none }

/-- The request envelope `Client.request` builds. -/
def client_payload (secret endpoint nonce : String)
    (data : List (String × JVal)) : RequestPayload :=
  { endpoint := some endpoint
    data := some data
    headers := some [("Authorization", secret)]
    nonce := some nonce }

/-- The pre-await part of `Client.request`: `if not self._session:
await self.init_sock()` (a closed session object is still truthy, so only a
never-opened session triggers `init_sock`), then enqueue the envelope with
`put_nowait` and register a fresh pending future under the nonce. -/
def request_dispatch (st : ClientSys) (secret endpoint nonce : String)
    (data : List (String × JVal)) : ClientSys :=
  let st' := if st.session.isNone then init_sock st else st
  { st' with
    queue := st'.queue ++ [client_payload secret endpoint nonce data]
    requests := dinsert st'.requests nonce FutureState.pending }

/-- How `asyncio.wait_for(future, timeout)` ends for the caller. -/
inductive AwaitResult where
  | resolvedWith (v : JVal)
  | timedOut

/-- The await tail of `Client.request`: the resolved value as-is, or — on
`asyncio.TimeoutError`, which is caught — the caller-supplied
`default_value`. Nothing is re-enqueued and nothing is raised. -/
def request_await (ar : AwaitResult) (default_value : JVal) : JVal :=
  match ar with
  | AwaitResult.resolvedWith v => v
  | AwaitResult.timedOut => default_value

/-- One pass of `Client._send_requests`: if the sender task is alive it
drains the queue, writing each envelope as one frame, in FIFO order;
otherwise nothing is sent. Returns the new state and the frames written. -/
def sender_step (st : ClientSys) : ClientSys × List RequestPayload :=
  if st.senderTask = some true then ({ st with queue := [] }, st.queue)
  else (st, [])

/-- One frame handled by `Client._receive_requests`, provided the worker
task is alive (a cancelled or crashed task processes nothing). A `CLOSED`
frame closes the session, sleeps 5 seconds and calls `init_sock` (the task
slots are non-`None` — the loops themselves are running — so only the
session is refreshed). An uncaught exception in the text branch kills the
worker task. -/
def worker_step (st : ClientSys) (f : WSFrame) : ClientSys :=
  if st.workerTask = some true then
    match f with
    | WSFrame.ping => st
    | WSFrame.pong => st
    | WSFrame.closed => init_sock st
    | WSFrame.text wire =>
      match process_response st.requests wire with
      | WorkerResult.ok t => { st with requests := t }
      | WorkerResult.keyErrorCrash => { st with workerTask := some false }
      | WorkerResult.invalidStateCrash t =>
          { st with workerTask := some false, requests := t }
  else st

/-- The receive loop over a whole sequence of inbound frames. -/
def worker_run (st : ClientSys) (frames : List WSFrame) : ClientSys :=
  frames.foldl worker_step st

/-! ### Association-list lemmas -/

theorem alookup_dinsert_self {β : Type} (t : List (String × β)) (k : String)
    (v : β) : alookup (dinsert t k v) k = some v := by
  induction t with
  | nil => simp [dinsert, alookup]
  | cons p rest ih =>
    obtain ⟨a, b⟩ := p
    by_cases h : a = k
    · subst h
      simp [dinsert, alookup]
    · simp [dinsert, h, alookup, Ne.symm h, ih]

theorem alookup_dinsert_ne {β : Type} (t : List (String × β)) (k k' : String)
    (v : β) (hne : k' ≠ k) : alookup (dinsert t k v) k' = alookup t k' := by
  induction t with
  | nil => simp [dinsert, alookup, hne]
  | cons p rest ih =>
    obtain ⟨a, b⟩ := p
    by_cases h : a = k
    · subst h
      simp [dinsert, alookup, hne]
    · by_cases h' : k' = a
      · subst h'
        simp [dinsert, h, alookup]
      · simp [dinsert, h, alookup, h', ih]

theorem alookup_dinsert_isSome {β : Type} (t : List (String × β))
    (k : String) (v : β) (k' : String) (h : (alookup t k').isSome = true) :
    (alookup (dinsert t k v) k').isSome = true := by
  by_cases hk : k' = k
  · subst hk
    rw [alookup_dinsert_self]
    rfl
  · rw [alookup_dinsert_ne _ _ _ _ hk]
    exact h

theorem dmerge_cons {β : Type} (a : List (String × β)) (p : String × β)
    (rest : List (String × β)) :
    dmerge a (p :: rest) = dmerge (dinsert a p.1 p.2) rest := rfl

theorem alookup_dmerge_of_nmem {β : Type} (routes acc : List (String × β))
    (k : String) (hk : k ∉ routes.map Prod.fst) :
    alookup (dmerge acc routes) k = alookup acc k := by
  induction routes generalizing acc with
  | nil => rfl
  | cons p rest ih =>
    rw [List.map_cons, List.mem_cons] at hk
    push_neg at hk
    rw [dmerge_cons, ih _ hk.2, alookup_dinsert_ne _ _ _ _ hk.1]

theorem alookup_dmerge_right {β : Type} (acc routes : List (String × β))
    (k : String) (v : β) (hnd : (routes.map Prod.fst).Nodup)
    (hv : alookup routes k = some v) :
    alookup (dmerge acc routes) k = some v := by
  induction routes generalizing acc with
  | nil => simp [alookup] at hv
  | cons p rest ih =>
    obtain ⟨a, b⟩ := p
    rw [List.map_cons, List.nodup_cons] at hnd
    rw [dmerge_cons]
    by_cases h : k = a
    · subst h
      have hb : b = v := by simpa [alookup] using hv
      subst hb
      rw [alookup_dmerge_of_nmem _ _ _ hnd.1, alookup_dinsert_self]
    · have hv' : alookup rest k = some v := by simpa [alookup, h] using hv
      exact ih (dinsert acc a b) hnd.2 hv'

theorem alookup_dmerge_left_isSome {β : Type} (acc routes : List (String × β))
    (k : String) (h : (alookup acc k).isSome = true) :
    (alookup (dmerge acc routes) k).isSome = true := by
  induction routes generalizing acc with
  | nil => exact h
  | cons p rest ih =>
    rw [dmerge_cons]
    exact ih _ (alookup_dinsert_isSome _ _ _ _ h)

/-- A dict whose `Authorization` lookup succeeds is neither `None` nor
empty, hence truthy in Python. -/
theorem pyFalsyDict_false_of_alookup {β : Type}
    (h : Option (List (String × β))) (k : String) (v : β)
    (ha : alookup (h.getD []) k = some v) : pyFalsyDict h = false := by
  cases h with
  | none => simp [alookup] at ha
  | some l =>
    cases l with
    | nil => simp [alookup] at ha
    | cons p rest => simp [pyFalsyDict]

/-- A cancelled or dead receive-loop task processes no frames at all. -/
theorem worker_run_dead (st : ClientSys) (frames : List WSFrame)
    (h : st.workerTask ≠ some true) : worker_run st frames = st := by
  induction frames with
  | nil => rfl
  | cons f rest ih =>
    show worker_run (worker_step st f) rest = st
    have hstep : worker_step st f = st := by
      simp [worker_step, h]
    rw [hstep]
    exact ih

/-! ### The claims -/

/-- Claim C1: for a request carrying the correct shared secret to an
endpoint registered in the live registry (registration via `route` never
produces the empty name, hence `ep ≠ ""`), whose handler returns a
serializable value `v`, the server replies `{nonce, response: v}` under the
request's nonce, the client's receive loop resolves exactly the pending
slot of that nonce with `v`, and `request()` returns `v` as-is. The shared
secret is ASCII, as `compare_digest` on `str` requires. -/
theorem c1_request_returns_handler_value
    (secret : String) (hsec : asciiOnly secret = true)
    (endpoints : List (String × Handler)) (ep : String) (h : Handler)
    (hep : alookup endpoints ep = some h) (hne : ep ≠ "")
    (data : List (String × JVal)) (v : JVal)
    (hok : h ⟨data, ep⟩ = Except.ok v) (hser : JVal.serializable v = true)
    (nonce : String) (table : List (String × FutureState))
    (hpend : alookup table nonce = some FutureState.pending) (d : JVal) :
    handle_message secret endpoints (client_payload secret ep nonce data)
      = Except.ok ⟨[⟨some nonce, v⟩], some ep⟩
    ∧ process_response table (Response.toWire ⟨some nonce, v⟩)
      = WorkerResult.ok (dinsert table nonce (FutureState.resolved v))
    ∧ alookup (dinsert table nonce (FutureState.resolved v)) nonce
      = some (FutureState.resolved v)
    ∧ request_await (AwaitResult.resolvedWith v) d = v := by
  refine ⟨?_, ?_, alookup_dinsert_self _ _ _, rfl⟩
  · simp [handle_message, client_payload, pyFalsyDict, alookup, compare_digest,
      hsec, pyFalsyStr, hne, hep, hok, send_response, hser]
  · simp [process_response, Response.toWire, alookup, hpend]

/-- Witness for C1 at a concrete handler and payload. -/
theorem c1_witness :
    handle_message "s" [("add", fun _ => Except.ok (JVal.int 7))]
        (client_payload "s" "add" "N1" [("x", JVal.int 3)])
      = Except.ok ⟨[⟨some "N1", JVal.int 7⟩], some "add"⟩
    ∧ process_response [("N1", FutureState.pending)]
        (Response.toWire ⟨some "N1", JVal.int 7⟩)
      = WorkerResult.ok
          (dinsert [("N1", FutureState.pending)] "N1"
            (FutureState.resolved (JVal.int 7)))
    ∧ alookup
        (dinsert [("N1", FutureState.pending)] "N1"
          (FutureState.resolved (JVal.int 7))) "N1"
      = some (FutureState.resolved (JVal.int 7))
    ∧ request_await (AwaitResult.resolvedWith (JVal.int 7)) JVal.null
      = JVal.int 7 :=
  c1_request_returns_handler_value "s" rfl
    [("add", fun _ => Except.ok (JVal.int 7))] "add"
    (fun _ => Except.ok (JVal.int 7)) rfl (by decide)
    [("x", JVal.int 3)] (JVal.int 7) rfl rfl
    "N1" [("N1", FutureState.pending)] rfl JVal.null

/-- Claim C2, counterexample: a request whose headers dict is non-empty but
has no `Authorization` key does not get the 401 response — `headers.get`
returns `None`, `compare_digest(None, secret)` raises `TypeError`, and the
connection handler dies without responding. -/
theorem c2_counterexample :
    handle_message "s" []
        { endpoint := some "e", data := some [],
          headers := some [("X", "y")], nonce := some "n" }
      = Except.error PyError.typeError
    ∧ handle_message "s" []
        { endpoint := some "e", data := some [],
          headers := some [("X", "y")], nonce := some "n" }
      ≠ Except.ok ⟨[⟨some "n", errVal "Invalid or no token provided." 401⟩],
          none⟩ := by
  have h1 : handle_message "s" []
      { endpoint := some "e", data := some [],
        headers := some [("X", "y")], nonce := some "n" }
      = Except.error PyError.typeError := rfl
  refine ⟨h1, fun hc => ?_⟩
  rw [h1] at hc
  exact Except.noConfusion hc

/-- Claim C2 as amended: when the headers field is absent or empty, or when
an `Authorization` value is present (ASCII, like the secret) but different
from the shared secret, the server responds
`{error: "Invalid or no token provided.", code: 401}` under the request's
nonce, for every registry — so no handler runs. (The remaining case,
headers present without an `Authorization` key, crashes the handler as the
counterexample shows.) -/
theorem c2_amended_auth_failure
    (secret : String) (hsec : asciiOnly secret = true)
    (endpoints : List (String × Handler)) (req : RequestPayload)
    (hbad : pyFalsyDict req.headers = true
      ∨ ∃ a, alookup (req.headers.getD []) "Authorization" = some a
          ∧ asciiOnly a = true ∧ a ≠ secret) :
    handle_message secret endpoints req
      = Except.ok ⟨[⟨req.nonce, errVal "Invalid or no token provided." 401⟩],
          none⟩ := by
  rcases hbad with hf | ⟨a, ha, haa, hane⟩
  · simp [handle_message, hf, send_response, errVal, JVal.serializable,
      serializableFields]
  · have hff : pyFalsyDict req.headers = false :=
      pyFalsyDict_false_of_alookup _ _ _ ha
    simp [handle_message, hff, ha, compare_digest, haa, hsec, hane,
      send_response, errVal, JVal.serializable, serializableFields]

/-- Witness for the amended C2: a wrong token gets the 401 response even
with an endpoint that is registered. -/
theorem c2_amended_witness :
    handle_message "s" [("add", fun _ => Except.ok (JVal.int 7))]
        { endpoint := some "add", data := some [],
          headers := some [("Authorization", "wrong")], nonce := some "n2" }
      = Except.ok ⟨[⟨some "n2", errVal "Invalid or no token provided." 401⟩],
          none⟩ :=
  c2_amended_auth_failure "s" rfl [("add", fun _ => Except.ok (JVal.int 7))]
    { endpoint := some "add", data := some [],
      headers := some [("Authorization", "wrong")], nonce := some "n2" }
    (Or.inr ⟨"wrong", rfl, rfl, by decide⟩)

/-- Claim C3: an authenticated request whose endpoint field is absent,
empty, or not a key of the live registry gets
`{error: "Invalid or no endpoint given.", code: 400}` under its nonce; the
conclusion holds for every registry agreeing with the hypothesis, and the
step's `invoked` field is `none` — no handler runs. -/
theorem c3_unknown_endpoint
    (secret : String) (hsec : asciiOnly secret = true)
    (endpoints : List (String × Handler)) (req : RequestPayload)
    (hauth : alookup (req.headers.getD []) "Authorization" = some secret)
    (hep : req.endpoint = none ∨ req.endpoint = some ""
      ∨ ∃ ep, req.endpoint = some ep ∧ alookup endpoints ep = none) :
    handle_message secret endpoints req
      = Except.ok ⟨[⟨req.nonce, errVal "Invalid or no endpoint given." 400⟩],
          none⟩ := by
  have hff : pyFalsyDict req.headers = false :=
    pyFalsyDict_false_of_alookup _ _ _ hauth
  rcases hep with hval | hval | ⟨ep, hval, hlook⟩
  · simp [handle_message, hff, hauth, compare_digest, hsec, pyFalsyStr, hval,
      send_response, errVal, JVal.serializable, serializableFields]
  · simp [handle_message, hff, hauth, compare_digest, hsec, pyFalsyStr, hval,
      send_response, errVal, JVal.serializable, serializableFields]
  · by_cases he : ep = ""
    · subst he
      simp [handle_message, hff, hauth, compare_digest, hsec, pyFalsyStr,
        hval, send_response, errVal, JVal.serializable, serializableFields]
    · simp [handle_message, hff, hauth, compare_digest, hsec, pyFalsyStr,
        hval, he, hlook, send_response, errVal, JVal.serializable,
        serializableFields]

/-- Witness for C3: an endpoint absent from the registry. -/
theorem c3_witness :
    handle_message "s" [("add", fun _ => Except.ok (JVal.int 7))]
        { endpoint := some "missing", data := some [],
          headers := some [("Authorization", "s")], nonce := some "n3" }
      = Except.ok ⟨[⟨some "n3", errVal "Invalid or no endpoint given." 400⟩],
          none⟩ :=
  c3_unknown_endpoint "s" rfl [("add", fun _ => Except.ok (JVal.int 7))]
    { endpoint := some "missing", data := some [],
      headers := some [("Authorization", "s")], nonce := some "n3" }
    rfl (Or.inr (Or.inr ⟨"missing", rfl, rfl⟩))

/-- Claim C4: when the handler of an authenticated, registered endpoint
raises, the server responds under the request's nonce with code 500 and the
string `"IPC route raised error of type <TypeName>"` — the conclusion
depends only on `e.tyName`, never on `e.msg` (the exception's message and
stack are not surfaced) — and the connection loop goes on to process the
remaining messages of the connection. -/
theorem c4_handler_raises
    (secret : String) (hsec : asciiOnly secret = true)
    (endpoints : List (String × Handler)) (ep : String) (h : Handler)
    (hep : alookup endpoints ep = some h) (hne : ep ≠ "")
    (data : List (String × JVal)) (e : PyExn)
    (hraise : h ⟨data, ep⟩ = Except.error e)
    (nonce : Option String) (rest : List RequestPayload) :
    handle_message secret endpoints
        { endpoint := some ep, data := some data,
          headers := some [("Authorization", secret)], nonce := nonce }
      = Except.ok
          ⟨[⟨nonce, errVal ("IPC route raised error of type " ++ e.tyName) 500⟩],
            some ep⟩
    ∧ handle_loop secret endpoints
        ({ endpoint := some ep, data := some data,
           headers := some [("Authorization", secret)], nonce := nonce } :: rest)
      = (handle_loop secret endpoints rest).map
          (fun rs =>
            ⟨nonce, errVal ("IPC route raised error of type " ++ e.tyName) 500⟩
              :: rs) := by
  have h1 : handle_message secret endpoints
      { endpoint := some ep, data := some data,
        headers := some [("Authorization", secret)], nonce := nonce }
      = Except.ok
          ⟨[⟨nonce, errVal ("IPC route raised error of type " ++ e.tyName) 500⟩],
            some ep⟩ := by
    simp [handle_message, pyFalsyDict, alookup, compare_digest, hsec,
      pyFalsyStr, hne, hep, hraise, send_response, errVal, JVal.serializable,
      serializableFields]
  refine ⟨h1, ?_⟩
  show (match handle_message secret endpoints _ with
        | Except.error e => Except.error e
        | Except.ok step =>
          match handle_loop secret endpoints rest with
          | Except.error e => Except.error e
          | Except.ok rs => Except.ok (step.sent ++ rs)) = _
  rw [h1]
  cases handle_loop secret endpoints rest with
  | error e' => rfl
  | ok rs => simp [Except.map]

/-- Witness for C4: a raising handler; the message `"secret detail"` does
not appear in the response. -/
theorem c4_witness :
    handle_message "s"
        [("boom", fun _ => Except.error (PyExn.mk "ValueError" "secret detail"))]
        { endpoint := some "boom", data := some [],
          headers := some [("Authorization", "s")], nonce := some "N4" }
      = Except.ok
          ⟨[⟨some "N4",
              errVal ("IPC route raised error of type " ++
                (PyExn.mk "ValueError" "secret detail").tyName) 500⟩],
            some "boom"⟩
    ∧ handle_loop "s"
        [("boom", fun _ => Except.error (PyExn.mk "ValueError" "secret detail"))]
        [{ endpoint := some "boom", data := some [],
           headers := some [("Authorization", "s")], nonce := some "N4" }]
      = (handle_loop "s"
          [("boom", fun _ => Except.error (PyExn.mk "ValueError" "secret detail"))]
          []).map
          (fun rs =>
            ⟨some "N4",
              errVal ("IPC route raised error of type " ++
                (PyExn.mk "ValueError" "secret detail").tyName) 500⟩ :: rs) :=
  c4_handler_raises "s" rfl
    [("boom", fun _ => Except.error (PyExn.mk "ValueError" "secret detail"))]
    "boom" (fun _ => Except.error (PyExn.mk "ValueError" "secret detail"))
    rfl (by decide) [] (PyExn.mk "ValueError" "secret detail") rfl
    (some "N4") []

/-- Claim C5: when the handler of an authenticated, registered endpoint
returns a value `json.dumps` rejects, the first `send_json` raises
`TypeError`, the guard matches, and the fallback response — code 500, the
advisory message of `server.py` — is sent under the request's nonce; the
loop then processes the remaining messages of the connection. -/
theorem c5_nonserializable_return
    (secret : String) (hsec : asciiOnly secret = true)
    (endpoints : List (String × Handler)) (ep : String) (h : Handler)
    (hep : alookup endpoints ep = some h) (hne : ep ≠ "")
    (data : List (String × JVal)) (v : JVal)
    (hok : h ⟨data, ep⟩ = Except.ok v) (hnser : JVal.serializable v = false)
    (nonce : Option String) (rest : List RequestPayload) :
    handle_message secret endpoints
        { endpoint := some ep, data := some data,
          headers := some [("Authorization", secret)], nonce := nonce }
      = Except.ok ⟨[⟨nonce, errVal nonSerializableMsg 500⟩], some ep⟩
    ∧ handle_loop secret endpoints
        ({ endpoint := some ep, data := some data,
           headers := some [("Authorization", secret)], nonce := nonce } :: rest)
      = (handle_loop secret endpoints rest).map
          (fun rs => ⟨nonce, errVal nonSerializableMsg 500⟩ :: rs) := by
  have h1 : handle_message secret endpoints
      { endpoint := some ep, data := some data,
        headers := some [("Authorization", secret)], nonce := nonce }
      = Except.ok ⟨[⟨nonce, errVal nonSerializableMsg 500⟩], some ep⟩ := by
    simp [handle_message, pyFalsyDict, alookup, compare_digest, hsec,
      pyFalsyStr, hne, hep, hok, send_response, hnser]
  refine ⟨h1, ?_⟩
  show (match handle_message secret endpoints _ with
        | Except.error e => Except.error e
        | Except.ok step =>
          match handle_loop secret endpoints rest with
          | Except.error e => Except.error e
          | Except.ok rs => Except.ok (step.sent ++ rs)) = _
  rw [h1]
  cases handle_loop secret endpoints rest with
  | error e' => rfl
  | ok rs => simp [Except.map]

/-- Witness for C5: a handler returning a bare Python object. -/
theorem c5_witness :
    handle_message "s" [("g", fun _ => Except.ok (JVal.pyObj "Guild"))]
        { endpoint := some "g", data := some [],
          headers := some [("Authorization", "s")], nonce := some "N5" }
      = Except.ok ⟨[⟨some "N5", errVal nonSerializableMsg 500⟩], some "g"⟩
    ∧ handle_loop "s" [("g", fun _ => Except.ok (JVal.pyObj "Guild"))]
        [{ endpoint := some "g", data := some [],
           headers := some [("Authorization", "s")], nonce := some "N5" }]
      = (handle_loop "s" [("g", fun _ => Except.ok (JVal.pyObj "Guild"))] []).map
          (fun rs => ⟨some "N5", errVal nonSerializableMsg 500⟩ :: rs) :=
  c5_nonserializable_return "s" rfl
    [("g", fun _ => Except.ok (JVal.pyObj "Guild"))] "g"
    (fun _ => Except.ok (JVal.pyObj "Guild")) rfl (by decide)
    [] (JVal.pyObj "Guild") rfl rfl (some "N5") []

/-- Claim C6: a `request()` call that times out returns the caller-supplied
`default_value` — `asyncio.TimeoutError` is caught, so nothing is raised;
the pure `request_await` is total — and the envelope was enqueued exactly
once by the dispatch, the timeout path touching neither the queue nor the
envelope (no resend). -/
theorem c6_timeout_returns_default (st : ClientSys)
    (secret ep nonce : String) (data : List (String × JVal)) (d : JVal) :
    request_await AwaitResult.timedOut d = d
    ∧ (request_dispatch st secret ep nonce data).queue
      = st.queue ++ [client_payload secret ep nonce data] := by
  refine ⟨rfl, ?_⟩
  by_cases hs : st.session.isNone
  · simp [request_dispatch, hs, init_sock]
  · simp [request_dispatch, hs]

/-- Claim C7 (code behaviour at the failing input): on a PING control frame
the receive loop calls `self._websocket.ping()`, emitting another PING
frame; no branch of `_receive_requests` ever sends a PONG. The claim (and
RFC 6455, which requires a Ping to be answered with a Pong) says the reply
should be a pong frame: the code is a slip. -/
theorem c7_ping_answered_with_ping :
    frame_control_action WSFrame.ping = ControlReply.sentPing
    ∧ ∀ f, frame_control_action f ≠ ControlReply.sentPong := by
  refine ⟨rfl, ?_⟩
  intro f
  cases f <;> simp [frame_control_action]

/-- Claim C8, counterexample: a second response envelope for a nonce whose
future is already resolved and still held by the weak table is not a no-op
— `future.set_result` raises `InvalidStateError`, which the `except
KeyError` clause does not catch, and the receive loop dies. -/
theorem c8_counterexample :
    process_response [("n", FutureState.resolved (JVal.str "v"))]
        [("nonce", JVal.str "n"), ("response", JVal.str "w")]
      = WorkerResult.invalidStateCrash [("n", FutureState.resolved (JVal.str "v"))]
    ∧ process_response [("n", FutureState.resolved (JVal.str "v"))]
        [("nonce", JVal.str "n"), ("response", JVal.str "w")]
      ≠ WorkerResult.ok [("n", FutureState.resolved (JVal.str "v"))] := by
  have h1 : process_response [("n", FutureState.resolved (JVal.str "v"))]
      [("nonce", JVal.str "n"), ("response", JVal.str "w")]
      = WorkerResult.invalidStateCrash
          [("n", FutureState.resolved (JVal.str "v"))] := rfl
  refine ⟨h1, fun hc => ?_⟩
  rw [h1] at hc
  exact WorkerResult.noConfusion hc

/-- Claim C8 as amended: a slot is resolved at most once and a second
envelope never changes the resolved value — but the "no-op" behaviour holds
only when the weak table has already dropped the slot (the `KeyError` is
caught and ignored); if the resolved future is still in the table,
`set_result` raises `InvalidStateError` and the receive loop dies, the
table (and so the resolved value) left unchanged. -/
theorem c8_amended_second_resolution
    (table : List (String × FutureState)) (wire : List (String × JVal))
    (n : String) (hn : alookup wire "nonce" = some (JVal.str n)) :
    (alookup table n = none → process_response table wire = WorkerResult.ok table)
    ∧ (∀ v, alookup table n = some (FutureState.resolved v) →
        process_response table wire = WorkerResult.invalidStateCrash table) := by
  constructor
  · intro hgone
    simp [process_response, hn, hgone]
  · intro v hres
    simp [process_response, hn, hres]

/-- Witness for the amended C8: both the dropped-slot no-op and the
still-present crash, at concrete inputs. -/
theorem c8_amended_witness :
    process_response [] [("nonce", JVal.str "m")] = WorkerResult.ok []
    ∧ process_response [("m", FutureState.resolved JVal.null)]
        [("nonce", JVal.str "m")]
      = WorkerResult.invalidStateCrash [("m", FutureState.resolved JVal.null)] :=
  ⟨(c8_amended_second_resolution [] [("nonce", JVal.str "m")] "m" rfl).1 rfl,
   (c8_amended_second_resolution [("m", FutureState.resolved JVal.null)]
      [("nonce", JVal.str "m")] "m" rfl).2 JVal.null rfl⟩

/-- Claim C9: `update_endpoints` merges the pending `ROUTES` into the live
registry as the right-biased dict union `{**endpoints, **ROUTES}` — every
name already live stays present (no entry is removed), a pending
registration wins on a name clash — and `route` re-registration under an
already-used name simply overwrites the previous handler, raising nothing
(both with an explicit truthy name and with the function's own name).
`ROUTES` keys are unique because a Python dict's keys are. -/
theorem c9_registry_merge {β : Type} (endpoints routes : List (String × β))
    (hnd : (routes.map Prod.fst).Nodup) :
    (∀ k, (alookup endpoints k).isSome = true →
        (alookup (update_endpoints endpoints routes).1 k).isSome = true)
    ∧ (∀ k v, alookup routes k = some v →
        alookup (update_endpoints endpoints routes).1 k = some v)
    ∧ (∀ (rts : List (String × β)) (name fname : String) (hh : β), name ≠ "" →
        alookup (route_register rts (some name) fname hh) name = some hh)
    ∧ (∀ (rts : List (String × β)) (fname : String) (hh : β),
        alookup (route_register rts none fname hh) fname = some hh) := by
  refine ⟨?_, ?_, ?_, ?_⟩
  · intro k hs
    exact alookup_dmerge_left_isSome _ _ _ hs
  · intro k v hv
    exact alookup_dmerge_right _ _ _ _ hnd hv
  · intro rts name fname hh hne
    simp [route_register, hne, alookup_dinsert_self]
  · intro rts fname hh
    simp [route_register, alookup_dinsert_self]

/-- Witness for C9: a live entry survives the merge, the pending handler
wins the clash, and re-registration overwrites. -/
theorem c9_witness :
    (alookup (update_endpoints [("a", 1)] [("a", 2), ("b", 3)]).1 "a").isSome
      = true
    ∧ alookup (update_endpoints [("a", 1)] [("a", 2), ("b", 3)]).1 "a" = some 2
    ∧ alookup (route_register [("a", 1)] (some "a") "f" 9) "a" = some 9
    ∧ alookup (route_register [("a", 1)] none "a" 8) "a" = some 8 := by
  have h := c9_registry_merge [("a", 1)] [("a", 2), ("b", 3)] (by decide)
  exact ⟨h.1 "a" rfl, h.2.1 "a" 2 rfl,
    h.2.2.1 [("a", 1)] "a" "f" 9 (by decide), h.2.2.2 [("a", 1)] "a" 8⟩

/-- Claim C10: after `close()`, `_session` still holds the (closed, truthy)
session object, so a later `request()` skips `init_sock`: the session is
not reopened, both task slots stay `None`, the dead sender emits no frame
for the enqueued envelope, the dead receive loop resolves nothing no matter
what frames arrive — the slot registered for the call's nonce stays pending
— and the call therefore ends in its timeout branch, returning
`default_value` (no reconnect, no exception). -/
theorem c10_request_after_close (st st1 : ClientSys)
    (hclose : close_model st = Except.ok st1)
    (secret ep nonce : String) (data : List (String × JVal)) (d : JVal) :
    (request_dispatch st1 secret ep nonce data).session = some false
    ∧ (request_dispatch st1 secret ep nonce data).workerTask = none
    ∧ (request_dispatch st1 secret ep nonce data).senderTask = none
    ∧ (sender_step (request_dispatch st1 secret ep nonce data)).2 = []
    ∧ (∀ frames, alookup
        (worker_run (request_dispatch st1 secret ep nonce data) frames).requests
        nonce = some FutureState.pending)
    ∧ request_await AwaitResult.timedOut d = d := by
  have hst1 : st1 =
      { st with session := some false, workerTask := none, senderTask := none } := by
    cases hs : st.session with
    | none => rw [close_model, hs] at hclose; exact Except.noConfusion hclose
    | some b =>
      rw [close_model, hs] at hclose
      exact (Except.ok.injEq _ _).mp hclose.symm
  subst hst1
  have hdisp : request_dispatch
      { st with session := some false, workerTask := none, senderTask := none }
      secret ep nonce data
      = { st with
          session := some false
          workerTask := none
          senderTask := none
          queue := st.queue ++ [client_payload secret ep nonce data]
          requests := dinsert st.requests nonce FutureState.pending } := by
    simp [request_dispatch]
  refine ⟨by rw [hdisp], by rw [hdisp], by rw [hdisp], ?_, ?_, rfl⟩
  · rw [hdisp]
    simp [sender_step]
  · intro frames
    rw [hdisp, worker_run_dead _ _ (by simp)]
    exact alookup_dinsert_self _ _ _

/-- Witness for C10: close an open client, dispatch a request, and feed the
dead receive loop a frame that would have resolved the very nonce — the
slot stays pending and the call falls back to the default value. -/
theorem c10_witness :
    (request_dispatch ⟨some false, none, none, [], []⟩ "s" "e" "N0" []).session
      = some false
    ∧ alookup
        (worker_run (request_dispatch ⟨some false, none, none, [], []⟩ "s" "e" "N0" [])
          [WSFrame.text [("nonce", JVal.str "N0"), ("response", JVal.int 1)]]).requests
        "N0"
      = some FutureState.pending
    ∧ request_await AwaitResult.timedOut JVal.null = JVal.null := by
  have h := c10_request_after_close ⟨some true, some true, some true, [], []⟩
    ⟨some false, none, none, [], []⟩ rfl "s" "e" "N0" [] JVal.null
  exact ⟨h.1,
    h.2.2.2.2.1 [WSFrame.text [("nonce", JVal.str "N0"), ("response", JVal.int 1)]],
    h.2.2.2.2.2⟩

end IPC
